/-
Verification of the incremental ingestion-and-checkpoint pipeline
(`src/cots/__init__.py`): the `App` orchestrator (`parse`,
`get_last_processed_row`, `update_last_processed_row`) and the
`COTS2021` row parser (`parse_row`, `create_base_doc` and the three
proposal-document builders).

The Python code is shallowly embedded as follows:
- a pandas `Series` row is a finite map from column name to string;
  `row[key]` raises `KeyError` when the column is absent, modelled as
  `Except.error (PyError.keyError key)`;
- Python exceptions are modelled by `Except PyError`; an uncaught
  exception aborts the run, which `parse` records in `RunResult.err`
  (the final state is then the unchanged input state, since the only
  state mutation in `parse` is the final checkpoint write);
- the Firestore checkpoint document is `AppState.record : Option Int`
  (`none` = the document does not exist, so `to_dict()` yields `None`
  and the subscript raises `TypeError`);
- `df.iloc[k:]` keeps the original row labels and follows Python
  slice semantics (negative start counts from the end), modelled by
  `pySliceFrom` over the label-annotated row list `dfEnum`;
- the Google Drive upload either succeeds or raises `HttpError`,
  chosen by the environment `Env.httpFails` per row index; `parse_row`
  catches `HttpError` and only logs it, so the outcome records
  `uploaded = false` instead of propagating an error.
-/
import Mathlib

deriving instance DecidableEq for Except

/-- Python exceptions that the pipeline can raise. -/
inductive PyError where
  | keyError : String → PyError
  | unboundLocalError : String → PyError
  | typeError : PyError
deriving DecidableEq

/-- A row of the response sheet: a pandas `Series`, addressed by column name. -/
structure Row where
  fields : List (String × String)
deriving DecidableEq

/-- `row[key]`: returns the value of the column, raising `KeyError` when absent. -/
def Row.get (row : Row) (key : String) : Except PyError String :=
  match List.lookup key row.fields with
  | some v => Except.ok v
  | none => Except.error (PyError.keyError key)

/-- A piece of a python-docx `Document`: a heading with its level, or a paragraph
(runs of one paragraph are flattened into a single string). -/
inductive Block where
  | heading : Nat → String → Block
  | para : String → Block
deriving DecidableEq

/-- A python-docx `Document`, as the ordered list of its blocks. -/
abbrev Doc := List Block

/-- The process environment of a run: the three destination folder ids read from
`INDIVIDUAL_PROPOSAL_FOLDER_ID`, `PANEL_PROPOSAL_FOLDER_ID` and
`ROUNDTABLE_PROPOSAL_FOLDER_ID`, and the behaviour of the Drive upload:
`httpFails i = true` means `files().create(...).execute()` raises `HttpError`
for the row with label `i`. -/
structure Env where
  individual_folder : String
  panel_folder : String
  roundtable_folder : String
  httpFails : Int → Bool

/-- The closed set of document kinds of `COTS2021`. -/
inductive DocKind where
  | individual : DocKind
  | panel : DocKind
  | roundtable : DocKind
deriving DecidableEq

/-- The `proposal_type` string assigned for each kind in `parse_row`. -/
def DocKind.tag : DocKind → String
  | DocKind.individual => "individual"
  | DocKind.panel => "panel"
  | DocKind.roundtable => "roundtable"

/-- Discriminant string of the first branch of `parse_row` (verbatim from the
source, including the `presentationtation` typo). -/
def individual_discriminant : String :=
  "A proposal for an individual paper, film screening or other presentationtation"

/-- Discriminant string of the second branch of `parse_row`. -/
def panel_discriminant : String := "A proposal for a paper panel"

/-- Discriminant string of the third branch of `parse_row` (verbatim from the
source, which writes `routable`, not `roundtable`). -/
def roundtable_discriminant : String := "A proposal for a routable"

/-- The chained conditionals of `parse_row` on
`row["What proposal are you planning to submit"]`; `none` means no branch
matched, leaving `document`, `proposal_type` and `parent_folder_id` unbound. -/
def classifyDiscriminant (d : String) : Option DocKind :=
  if d = individual_discriminant then some DocKind.individual
  else if d = panel_discriminant then some DocKind.panel
  else if d = roundtable_discriminant then some DocKind.roundtable
  else none

/-- `self.config["folder_ids"][...]` chosen in the matching branch of `parse_row`. -/
def folderFor (env : Env) : DocKind → String
  | DocKind.individual => env.individual_folder
  | DocKind.panel => env.panel_folder
  | DocKind.roundtable => env.roundtable_folder

/-- `COTS2021.create_base_doc`: heading plus the submitted-by and affiliation
paragraphs; reads the columns in source order, raising `KeyError` on the first
absent one. -/
def create_base_doc (_idx : Int) (row : Row) (heading : String) : Except PyError Doc :=
  match row.get "First name" with
  | Except.error e => Except.error e
  | Except.ok first =>
    match row.get "Last name" with
    | Except.error e => Except.error e
    | Except.ok lastName =>
      let fullname := first ++ " " ++ lastName
      match row.get "Email address" with
      | Except.error e => Except.error e
      | Except.ok email =>
        match row.get "Timestamp" with
        | Except.error e => Except.error e
        | Except.ok timestamp =>
          match row.get "Affiliation" with
          | Except.error e => Except.error e
          | Except.ok affiliation =>
            Except.ok
              [Block.heading 0 heading,
               Block.para
                 ("Submitted by: " ++ fullname ++ " (" ++ email ++ ") At: " ++ timestamp),
               Block.para ("Affiliation: " ++ affiliation)]

/-- `COTS2021.create_individual_proposal_doc`. -/
def create_individual_proposal_doc (idx : Int) (row : Row) : Except PyError Doc :=
  match create_base_doc idx row "Individual/Film/Other" with
  | Except.error e => Except.error e
  | Except.ok base =>
    match row.get "Abstract" with
    | Except.error e => Except.error e
    | Except.ok abstract =>
      Except.ok (base ++ [Block.heading 1 "Abstract", Block.para abstract])

/-- `COTS2021.create_panel_proposal_doc`. -/
def create_panel_proposal_doc (idx : Int) (row : Row) : Except PyError Doc :=
  match create_base_doc idx row "Panel" with
  | Except.error e => Except.error e
  | Except.ok base =>
    match row.get "Topic of the panel" with
    | Except.error e => Except.error e
    | Except.ok topic =>
      match row.get "Names of the panelists" with
      | Except.error e => Except.error e
      | Except.ok names =>
        match row.get "Contact information of the panelists" with
        | Except.error e => Except.error e
        | Except.ok contacts =>
          match row.get "Abstracts" with
          | Except.error e => Except.error e
          | Except.ok abstracts =>
            Except.ok
              (base ++
                [Block.heading 1 "Topic", Block.para topic,
                 Block.heading 1 "Panelists", Block.para names,
                 Block.heading 1 "Emails", Block.para contacts,
                 Block.heading 1 "Abstracts", Block.para abstracts])

/-- `COTS2021.create_roundtable_proposal_doc`. -/
def create_roundtable_proposal_doc (idx : Int) (row : Row) : Except PyError Doc :=
  match create_base_doc idx row "Roundtable" with
  | Except.error e => Except.error e
  | Except.ok base =>
    match row.get "Abstract.1" with
    | Except.error e => Except.error e
    | Except.ok abstract =>
      match row.get "Name of the participants" with
      | Except.error e => Except.error e
      | Except.ok participants =>
        match row.get "Contact information of the participants" with
        | Except.error e => Except.error e
        | Except.ok contacts =>
          Except.ok
            (base ++
              [Block.heading 1 "Abstract", Block.para abstract,
               Block.heading 1 "Participants", Block.para participants,
               Block.heading 1 "Emails", Block.para contacts])

/-- The builder called in the matching branch of `parse_row`. -/
def builderFor : DocKind → Int → Row → Except PyError Doc
  | DocKind.individual => create_individual_proposal_doc
  | DocKind.panel => create_panel_proposal_doc
  | DocKind.roundtable => create_roundtable_proposal_doc

/-- The observable result of one successful `parse_row` call: the derived
Drive file name, the destination folder, the `proposal_type` string, and
whether the upload succeeded (`false` when `HttpError` was caught and logged). -/
structure RowOutcome where
  gdoc_name : String
  parent_folder_id : String
  proposal_type : String
  uploaded : Bool
deriving DecidableEq

/-- `COTS2021.parse_row`: computes `fullname`, classifies the row by its
discriminant column, builds the document with the branch's builder, derives
`gdoc_name` and uploads. An unmatched discriminant leaves `document` unbound,
so `document.save(...)` raises `UnboundLocalError`; a missing column raises
`KeyError`; `HttpError` from the upload is caught and only logged. -/
def parse_row (env : Env) (idx : Int) (row : Row) : Except PyError RowOutcome :=
  match row.get "First name" with
  | Except.error e => Except.error e
  | Except.ok first =>
    match row.get "Last name" with
    | Except.error e => Except.error e
    | Except.ok lastName =>
      let fullname := first ++ " " ++ lastName
      match row.get "What proposal are you planning to submit" with
      | Except.error e => Except.error e
      | Except.ok discriminant =>
        match classifyDiscriminant discriminant with
        | none => Except.error (PyError.unboundLocalError "document")
        | some kind =>
          match builderFor kind idx row with
          | Except.error e => Except.error e
          | Except.ok _document =>
            let gdoc_name :=
              fullname ++ " (id-" ++ toString idx ++ " type-" ++ DocKind.tag kind ++ ")"
            if env.httpFails idx then
              Except.ok (RowOutcome.mk gdoc_name (folderFor env kind) (DocKind.tag kind) false)
            else
              Except.ok (RowOutcome.mk gdoc_name (folderFor env kind) (DocKind.tag kind) true)

/-- The working-storage state of the app: the configured
`WORKING_STORAGE_TYPE` and the Firestore checkpoint document
(`none` when no such document exists). -/
structure AppState where
  working_storage_type : String
  record : Option Int
deriving DecidableEq

/-- `App.get_last_processed_row`: on the firebase backend, fetches the
checkpoint document; a missing document makes `to_dict()` return `None`, so
the subscript raises `TypeError`. On any other backend the body is skipped and
the function implicitly returns `None`. -/
def get_last_processed_row (st : AppState) : Except PyError (Option Int) :=
  if st.working_storage_type = "firebase" then
    match st.record with
    | some v => Except.ok (some v)
    | none => Except.error PyError.typeError
  else
    Except.ok none

/-- `App.update_last_processed_row`: writes the checkpoint document on the
firebase backend and does nothing on any other backend. -/
def update_last_processed_row (st : AppState) (row_idx : Int) : AppState :=
  if st.working_storage_type = "firebase" then
    AppState.mk st.working_storage_type (some row_idx)
  else
    st

/-- The fetched table with `iterrows` labels: rows paired with their original
positional index, starting from `i`. -/
def dfEnum (i : Int) : List Row → List (Int × Row)
  | [] => []
  | r :: rs => (i, r) :: dfEnum (i + 1) rs

/-- Python slice `l[s:]` for a possibly negative integer start `s`:
`max 0 (length l + s)` elements are dropped when `s < 0`. -/
def pySliceFrom (l : List α) (s : Int) : List α :=
  if 0 ≤ s then l.drop s.toNat else l.drop (l.length - (-s).toNat)

/-- `to_be_processed = df.iloc[last_processed_row + 1 :]`, keeping the
original row labels. -/
def to_be_processed (df : List Row) (last_processed_row : Int) : List (Int × Row) :=
  pySliceFrom (dfEnum 0 df) (last_processed_row + 1)

/-- The observable trace of the `for idx, row in to_be_processed.iterrows()`
loop: the final `last_processed_row` watermark, the labels passed to
`parse_row` in order, the outcomes of the successful calls, and the uncaught
exception that aborted the loop, if any. -/
structure LoopResult where
  watermark : Int
  visited : List Int
  outcomes : List (Int × RowOutcome)
  err : Option PyError
deriving DecidableEq

/-- The orchestrator loop of `App.parse`: calls `parse_row` on each row in
order, advancing `last_processed_row` to the label after each successful call;
an uncaught exception from `parse_row` aborts the loop (the failing row was
visited, the watermark keeps its previous value). -/
def parseLoop (env : Env) (watermark : Int) : List (Int × Row) → LoopResult
  | [] => LoopResult.mk watermark [] [] none
  | (i, row) :: rest =>
    match parse_row env i row with
    | Except.error e => LoopResult.mk watermark [i] [] (some e)
    | Except.ok out =>
      let r := parseLoop env i rest
      LoopResult.mk r.watermark (i :: r.visited) ((i, out) :: r.outcomes) r.err

/-- The observable trace of one `App.parse` run: the working-storage state
when the run ends, the row labels visited, the recorded outcomes, the
arguments of the `update_last_processed_row` calls made, and the uncaught
exception that aborted the run, if any. -/
structure RunResult where
  finalState : AppState
  visited : List Int
  outcomes : List (Int × RowOutcome)
  checkpointWrites : List Int
  err : Option PyError
deriving DecidableEq

/-- The end of a run, after the loop: when the loop was aborted by an uncaught
exception, the exception propagates and the working storage is left untouched;
otherwise `update_last_processed_row` is called exactly once, with the final
`last_processed_row` watermark. -/
def finalizeRun (st : AppState) (r : LoopResult) : RunResult :=
  match r.err with
  | some e => RunResult.mk st r.visited r.outcomes [] (some e)
  | none =>
    RunResult.mk (update_last_processed_row st r.watermark) r.visited r.outcomes
      [r.watermark] none

/-- `App.parse`: reads the checkpoint, slices the unprocessed suffix
(`last_processed_row + 1` raises `TypeError` when the checkpoint read returned
`None`), runs the loop, and finalizes. -/
def parse (env : Env) (st : AppState) (df : List Row) : RunResult :=
  match get_last_processed_row st with
  | Except.error e => RunResult.mk st [] [] [] (some e)
  | Except.ok none => RunResult.mk st [] [] [] (some PyError.typeError)
  | Except.ok (some last) => finalizeRun st (parseLoop env last (to_be_processed df last))

/-- Whether a call returned normally (no uncaught exception). -/
def exceptIsOk : Except ε α → Bool
  | Except.ok _ => true
  | Except.error _ => false

/-- The integers `a, a+1, ..., a+n-1`, the labels of `n` consecutive rows. -/
def intRange (a : Int) : Nat → List Int
  | 0 => []
  | Nat.succ n => a :: intRange (a + 1) n

/-- A run environment with configured folder ids in which every upload succeeds. -/
def env0 : Env := Env.mk "folder-ind" "folder-pan" "folder-rt" (fun _ => false)

/-- A run environment in which the upload of the row with label 0 raises
`HttpError` and every other upload succeeds. -/
def envHttpFail0 : Env := Env.mk "folder-ind" "folder-pan" "folder-rt" (fun i => i == 0)

/-- The common (base-document) columns of the example submission. -/
def adaBase : List (String × String) :=
  [("First name", "Ada"), ("Last name", "Lovelace"),
   ("Email address", "ada@example.com"), ("Timestamp", "1/1/2021 10:00:00"),
   ("Affiliation", "Analytical Engines")]

/-- A well-formed paper-panel submission row. -/
def adaRow : Row := Row.mk (adaBase ++
  [("What proposal are you planning to submit", panel_discriminant),
   ("Topic of the panel", "Computing machines"),
   ("Names of the panelists", "Ada, Charles"),
   ("Contact information of the panelists", "ada@example.com"),
   ("Abstracts", "On computing")])

/-- A row whose discriminant (the correctly spelled
`"A proposal for a roundtable"`) matches none of the three variant strings of
the code, which tests for the misspelling `"A proposal for a routable"`. -/
def unclassifiedRow : Row := Row.mk (adaBase ++
  [("What proposal are you planning to submit", "A proposal for a roundtable")])

/-- A paper-panel row that lacks the required `"Topic of the panel"` column. -/
def panelRowNoTopic : Row := Row.mk (adaBase ++
  [("What proposal are you planning to submit", panel_discriminant),
   ("Names of the panelists", "Ada, Charles"),
   ("Contact information of the panelists", "ada@example.com"),
   ("Abstracts", "On computing")])

/-- An individual-proposal row that lacks the required `"Abstract"` column. -/
def individualRowNoAbstract : Row := Row.mk (adaBase ++
  [("What proposal are you planning to submit", individual_discriminant)])

/-- A row that lacks the `"First name"` column. -/
def rowNoFirstName : Row := Row.mk
  [("Last name", "Lovelace"),
   ("What proposal are you planning to submit", panel_discriminant)]

/-- Firebase working storage whose checkpoint document stores `-1`. -/
def stFirebaseNeg1 : AppState := AppState.mk "firebase" (some (-1))

/-- Firebase working storage whose checkpoint document stores `0`. -/
def stFirebase0 : AppState := AppState.mk "firebase" (some 0)

/-- Firebase working storage with no checkpoint document at all. -/
def stFirebaseNoDoc : AppState := AppState.mk "firebase" none

/-- The default working storage (`WORKING_STORAGE_TYPE` unset, type `file`). -/
def stFile : AppState := AppState.mk "file" none

theorem exceptIsOk_iff {ε α : Type} (x : Except ε α) :
    exceptIsOk x = true ↔ ∃ a, x = Except.ok a := by
  cases x <;> simp [exceptIsOk]

theorem intRange_length (n : Nat) : ∀ a : Int, (intRange a n).length = n := by
  induction n with
  | zero => intro a; rfl
  | succ n ih => intro a; simp [intRange, ih]

theorem mem_intRange (n : Nat) : ∀ a x : Int, x ∈ intRange a n ↔ a ≤ x ∧ x < a + n := by
  induction n with
  | zero => intro a x; simp [intRange]
  | succ n ih => intro a x; simp [intRange, ih]; omega

theorem intRange_pairwise (n : Nat) :
    ∀ a : Int, List.Pairwise (fun x y => x < y) (intRange a n) := by
  induction n with
  | zero => intro a; simp [intRange]
  | succ n ih =>
    intro a
    simp only [intRange, List.pairwise_cons]
    refine ⟨fun x hx => ?_, ih (a + 1)⟩
    rw [mem_intRange] at hx
    omega

theorem intRange_drop : ∀ (n k : Nat) (a : Int), (intRange a n).drop k = intRange (a + k) (n - k) := by
  intro n
  induction n with
  | zero => intro k a; simp [intRange]
  | succ n ih =>
    intro k a
    cases k with
    | zero => simp [intRange]
    | succ k =>
      have h := ih k (a + 1)
      simp only [intRange, List.drop_succ_cons, h, Nat.succ_sub_succ]
      congr 1
      omega

theorem dfEnum_map_fst : ∀ (df : List Row) (i : Int),
    (dfEnum i df).map Prod.fst = intRange i df.length := by
  intro df
  induction df with
  | nil => intro i; rfl
  | cons r rs ih => intro i; simp [dfEnum, intRange, ih]

theorem to_be_processed_sublist (df : List Row) (c : Int) :
    List.Sublist (to_be_processed df c) (dfEnum 0 df) := by
  unfold to_be_processed pySliceFrom
  split
  · exact List.drop_sublist _ _
  · exact List.drop_sublist _ _

theorem to_be_processed_pairwise (df : List Row) (c : Int) :
    List.Pairwise (fun a b => a < b) ((to_be_processed df c).map Prod.fst) := by
  have h1 := (to_be_processed_sublist df c).map Prod.fst
  have h2 : List.Pairwise (fun a b => a < b) ((dfEnum 0 df).map Prod.fst) := by
    rw [dfEnum_map_fst]
    exact intRange_pairwise _ _
  exact List.Pairwise.sublist h1 h2

theorem to_be_processed_map_fst (df : List Row) (c : Int) (h : -1 ≤ c) :
    (to_be_processed df c).map Prod.fst = intRange (c + 1) (df.length - (c + 1).toNat) := by
  unfold to_be_processed pySliceFrom
  rw [if_pos (by omega : (0 : Int) ≤ c + 1)]
  rw [List.map_drop, dfEnum_map_fst, intRange_drop]
  congr 1
  omega

theorem to_be_processed_length (df : List Row) (c : Int) (h1 : -1 ≤ c)
    (h2 : c < (df.length : Int)) :
    ((to_be_processed df c).length : Int) = (df.length : Int) - 1 - c := by
  have h := congrArg List.length (to_be_processed_map_fst df c h1)
  rw [List.length_map, intRange_length] at h
  omega

theorem parseLoop_err_none_visited (env : Env) :
    ∀ (rows : List (Int × Row)) (w : Int), (parseLoop env w rows).err = none →
      (parseLoop env w rows).visited = rows.map Prod.fst := by
  intro rows
  induction rows with
  | nil => intro w _; rfl
  | cons p rest ih =>
    intro w h
    obtain ⟨i, row⟩ := p
    cases hp : parse_row env i row with
    | error e => simp [parseLoop, hp] at h
    | ok out =>
      simp only [parseLoop, hp] at h ⊢
      simp [ih i h]

theorem parseLoop_watermark_cases (env : Env) :
    ∀ (rows : List (Int × Row)) (w : Int), (parseLoop env w rows).err = none →
      (rows = [] ∧ (parseLoop env w rows).watermark = w) ∨
        (parseLoop env w rows).watermark ∈ rows.map Prod.fst := by
  intro rows
  induction rows with
  | nil => intro w _; exact Or.inl ⟨rfl, rfl⟩
  | cons p rest ih =>
    intro w h
    obtain ⟨i, row⟩ := p
    cases hp : parse_row env i row with
    | error e => simp [parseLoop, hp] at h
    | ok out =>
      simp only [parseLoop, hp] at h ⊢
      rcases ih i h with ⟨hnil, hw⟩ | hmem
      · subst hnil
        simp [hw]
      · exact Or.inr (by rw [List.map_cons]; exact List.mem_cons_of_mem _ hmem)

theorem parseLoop_watermark_ge (env : Env) :
    ∀ (rows : List (Int × Row)) (w : Int), (parseLoop env w rows).err = none →
      List.Pairwise (fun a b => a < b) (rows.map Prod.fst) →
      ∀ x ∈ rows.map Prod.fst, x ≤ (parseLoop env w rows).watermark := by
  intro rows
  induction rows with
  | nil => intro w _ _ x hx; simp at hx
  | cons p rest ih =>
    intro w h hpair x hx
    obtain ⟨i, row⟩ := p
    rw [List.map_cons, List.pairwise_cons] at hpair
    cases hp : parse_row env i row with
    | error e => simp [parseLoop, hp] at h
    | ok out =>
      simp only [parseLoop, hp] at h ⊢
      rw [List.map_cons, List.mem_cons] at hx
      rcases hx with hx | hx
      · subst hx
        rcases parseLoop_watermark_cases env rest x h with ⟨_, hw⟩ | hmem
        · omega
        · exact le_of_lt (hpair.1 _ hmem)
      · exact ih i h hpair.2 x hx

theorem parseLoop_err_none_of_all_ok (env : Env) :
    ∀ (rows : List (Int × Row)) (w : Int),
      (∀ p ∈ rows, exceptIsOk (parse_row env p.1 p.2) = true) →
      (parseLoop env w rows).err = none := by
  intro rows
  induction rows with
  | nil => intro w _; rfl
  | cons p rest ih =>
    intro w h
    obtain ⟨i, row⟩ := p
    have hhead := h (i, row) (List.mem_cons_self _ _)
    rw [exceptIsOk_iff] at hhead
    obtain ⟨out, hout⟩ := hhead
    simp only [parseLoop, hout]
    exact ih i (fun q hq => h q (List.mem_cons_of_mem _ hq))

theorem parseLoop_outcomes_mem (env : Env) :
    ∀ (rows : List (Int × Row)) (w : Int), (parseLoop env w rows).err = none →
      ∀ p ∈ rows, ∀ out, parse_row env p.1 p.2 = Except.ok out →
        (p.1, out) ∈ (parseLoop env w rows).outcomes := by
  intro rows
  induction rows with
  | nil => intro w _ p hp; simp at hp
  | cons q rest ih =>
    intro w h p hp out hout
    obtain ⟨i, row⟩ := q
    cases hq : parse_row env i row with
    | error e => simp [parseLoop, hq] at h
    | ok out' =>
      simp only [parseLoop, hq] at h ⊢
      rw [List.mem_cons] at hp
      rcases hp with hp | hp
      · subst hp
        rw [hq] at hout
        injection hout with hout
        subst hout
        exact List.mem_cons_self _ _
      · exact List.mem_cons_of_mem _ (ih i h p hp out hout)

theorem parseLoop_visited_prefix (env : Env) :
    ∀ (rows : List (Int × Row)) (w : Int),
      ∃ t, (parseLoop env w rows).visited ++ t = rows.map Prod.fst := by
  intro rows
  induction rows with
  | nil => intro w; exact ⟨[], rfl⟩
  | cons p rest ih =>
    intro w
    obtain ⟨i, row⟩ := p
    cases hp : parse_row env i row with
    | error e =>
      refine ⟨rest.map Prod.fst, ?_⟩
      simp [parseLoop, hp]
    | ok out =>
      obtain ⟨t, ht⟩ := ih i
      refine ⟨t, ?_⟩
      simp only [parseLoop, hp, List.map_cons, List.cons_append]
      simp [ht]

theorem get_last_some_iff (st : AppState) (v : Int) :
    get_last_processed_row st = Except.ok (some v) ↔
      st.working_storage_type = "firebase" ∧ st.record = some v := by
  constructor
  · intro hg
    unfold get_last_processed_row at hg
    split at hg
    · next hfb =>
      cases hr : st.record with
      | none => rw [hr] at hg; exact absurd hg (by simp)
      | some u =>
        rw [hr] at hg
        simp only [Except.ok.injEq, Option.some.injEq] at hg
        subst hg
        exact ⟨hfb, rfl⟩
    · simp at hg
  · rintro ⟨hfb, hr⟩
    unfold get_last_processed_row
    rw [if_pos hfb, hr]

theorem get_last_not_firebase (st : AppState) (h : st.working_storage_type ≠ "firebase") :
    get_last_processed_row st = Except.ok none := by
  unfold get_last_processed_row
  rw [if_neg h]

theorem update_not_firebase (st : AppState) (i : Int)
    (h : st.working_storage_type ≠ "firebase") : update_last_processed_row st i = st := by
  unfold update_last_processed_row
  rw [if_neg h]

theorem parse_get_error_eq (env : Env) (st : AppState) (df : List Row) (e : PyError)
    (h : get_last_processed_row st = Except.error e) :
    parse env st df = RunResult.mk st [] [] [] (some e) := by
  unfold parse
  rw [h]

theorem parse_get_none_eq (env : Env) (st : AppState) (df : List Row)
    (h : get_last_processed_row st = Except.ok none) :
    parse env st df = RunResult.mk st [] [] [] (some PyError.typeError) := by
  unfold parse
  rw [h]

theorem parse_get_some_eq (env : Env) (st : AppState) (df : List Row) (last : Int)
    (h : get_last_processed_row st = Except.ok (some last)) :
    parse env st df = finalizeRun st (parseLoop env last (to_be_processed df last)) := by
  unfold parse
  rw [h]

theorem finalizeRun_err_some (st : AppState) (r : LoopResult) (e : PyError)
    (h : r.err = some e) :
    finalizeRun st r = RunResult.mk st r.visited r.outcomes [] (some e) := by
  unfold finalizeRun
  rw [h]

theorem finalizeRun_err_none (st : AppState) (r : LoopResult) (h : r.err = none) :
    finalizeRun st r =
      RunResult.mk (update_last_processed_row st r.watermark) r.visited r.outcomes
        [r.watermark] none := by
  unfold finalizeRun
  rw [h]

theorem parse_err_isSome (env : Env) (st : AppState) (df : List Row)
    (h : ((parse env st df).err).isSome = true) :
    (parse env st df).checkpointWrites = [] ∧ (parse env st df).finalState = st := by
  cases hg : get_last_processed_row st with
  | error e => rw [parse_get_error_eq env st df e hg]; exact ⟨rfl, rfl⟩
  | ok o =>
    cases o with
    | none => rw [parse_get_none_eq env st df hg]; exact ⟨rfl, rfl⟩
    | some last =>
      rw [parse_get_some_eq env st df last hg] at h ⊢
      cases he : (parseLoop env last (to_be_processed df last)).err with
      | some e => rw [finalizeRun_err_some _ _ _ he]; exact ⟨rfl, rfl⟩
      | none =>
        rw [finalizeRun_err_none _ _ he] at h
        simp at h

theorem dfEnum_length : ∀ (df : List Row) (i : Int), (dfEnum i df).length = df.length := by
  intro df
  induction df with
  | nil => intro i; rfl
  | cons r rs ih => intro i; simp [dfEnum, ih]

theorem parse_visited_eq_loop (env : Env) (st : AppState) (df : List Row) (c : Int)
    (hg : get_last_processed_row st = Except.ok (some c)) :
    (parse env st df).visited = (parseLoop env c (to_be_processed df c)).visited := by
  rw [parse_get_some_eq env st df c hg]
  cases he : (parseLoop env c (to_be_processed df c)).err with
  | some e => rw [finalizeRun_err_some _ _ _ he]
  | none => rw [finalizeRun_err_none _ _ he]

theorem create_base_doc_ok_fields (i : Int) (row : Row) (heading : String)
    (h : exceptIsOk (create_base_doc i row heading) = true) :
    (∃ v, row.get "First name" = Except.ok v) ∧
    (∃ v, row.get "Last name" = Except.ok v) ∧
    (∃ v, row.get "Email address" = Except.ok v) ∧
    (∃ v, row.get "Timestamp" = Except.ok v) ∧
    (∃ v, row.get "Affiliation" = Except.ok v) := by
  unfold create_base_doc at h
  cases h1 : row.get "First name" with
  | error e => rw [h1] at h; simp [exceptIsOk] at h
  | ok v1 =>
    rw [h1] at h
    cases h2 : row.get "Last name" with
    | error e => rw [h2] at h; simp [exceptIsOk] at h
    | ok v2 =>
      rw [h2] at h
      cases h3 : row.get "Email address" with
      | error e => rw [h3] at h; simp [exceptIsOk] at h
      | ok v3 =>
        rw [h3] at h
        cases h4 : row.get "Timestamp" with
        | error e => rw [h4] at h; simp [exceptIsOk] at h
        | ok v4 =>
          rw [h4] at h
          cases h5 : row.get "Affiliation" with
          | error e => rw [h5] at h; simp [exceptIsOk] at h
          | ok v5 =>
            exact ⟨⟨v1, rfl⟩, ⟨v2, rfl⟩, ⟨v3, rfl⟩, ⟨v4, rfl⟩, ⟨v5, rfl⟩⟩

theorem parse_row_uploaded (env : Env) (i : Int) (row : Row) (out : RowOutcome)
    (h : parse_row env i row = Except.ok out) : out.uploaded = !(env.httpFails i) := by
  cases h1 : row.get "First name" with
  | error e => simp [parse_row, h1] at h
  | ok v1 =>
    cases h2 : row.get "Last name" with
    | error e => simp [parse_row, h1, h2] at h
    | ok v2 =>
      cases h3 : row.get "What proposal are you planning to submit" with
      | error e => simp [parse_row, h1, h2, h3] at h
      | ok d =>
        cases h4 : classifyDiscriminant d with
        | none => simp [parse_row, h1, h2, h3, h4] at h
        | some kind =>
          cases h5 : builderFor kind i row with
          | error e => simp [parse_row, h1, h2, h3, h4, h5] at h
          | ok doc =>
            cases hh : env.httpFails i with
            | true =>
              simp [parse_row, h1, h2, h3, h4, h5, hh] at h
              subst h
              rfl
            | false =>
              simp [parse_row, h1, h2, h3, h4, h5, hh] at h
              subst h
              rfl

/-- Claim C3: in every run, the checkpoint write (`update_last_processed_row`) is
invoked exactly once, after the loop, with the highest row index reached (the
stored checkpoint itself when no row was visited); and if the run is aborted by
an uncaught exception before finalizing, no write is invoked and the stored
state is unchanged. -/
theorem checkpoint_written_once_with_watermark (env : Env) (st : AppState) (df : List Row) :
    ((parse env st df).err = none →
      ∃ c w, st.working_storage_type = "firebase" ∧ st.record = some c ∧
        (parse env st df).checkpointWrites = [w] ∧
        (parse env st df).finalState.record = some w ∧
        (∀ i ∈ (parse env st df).visited, i ≤ w) ∧
        ((parse env st df).visited ≠ [] → w ∈ (parse env st df).visited) ∧
        ((parse env st df).visited = [] → w = c)) ∧
    ((parse env st df).err.isSome = true →
      (parse env st df).checkpointWrites = [] ∧ (parse env st df).finalState = st) := by
  refine ⟨?_, parse_err_isSome env st df⟩
  intro h
  cases hg : get_last_processed_row st with
  | error e => rw [parse_get_error_eq env st df e hg] at h; simp at h
  | ok o =>
    cases o with
    | none => rw [parse_get_none_eq env st df hg] at h; simp at h
    | some last =>
      obtain ⟨hfb, hrec⟩ := (get_last_some_iff st last).mp hg
      cases he : (parseLoop env last (to_be_processed df last)).err with
      | some e =>
        rw [parse_get_some_eq env st df last hg, finalizeRun_err_some _ _ _ he] at h
        simp at h
      | none =>
        have hpe : parse env st df =
            RunResult.mk
              (update_last_processed_row st
                (parseLoop env last (to_be_processed df last)).watermark)
              (parseLoop env last (to_be_processed df last)).visited
              (parseLoop env last (to_be_processed df last)).outcomes
              [(parseLoop env last (to_be_processed df last)).watermark] none := by
          rw [parse_get_some_eq env st df last hg, finalizeRun_err_none _ _ he]
        have hv := parseLoop_err_none_visited env (to_be_processed df last) last he
        refine ⟨last, (parseLoop env last (to_be_processed df last)).watermark,
          hfb, hrec, ?_, ?_, ?_, ?_, ?_⟩
        · rw [hpe]
        · rw [hpe]
          show (update_last_processed_row st _).record = _
          unfold update_last_processed_row
          rw [if_pos hfb]
        · intro i hi
          rw [hpe] at hi
          have hi2 : i ∈ (parseLoop env last (to_be_processed df last)).visited := hi
          rw [hv] at hi2
          exact parseLoop_watermark_ge env (to_be_processed df last) last he
            (to_be_processed_pairwise df last) i hi2
        · intro hne
          rw [hpe] at hne ⊢
          have hne2 : (parseLoop env last (to_be_processed df last)).visited ≠ [] := hne
          show (parseLoop env last (to_be_processed df last)).watermark ∈
            (parseLoop env last (to_be_processed df last)).visited
          rcases parseLoop_watermark_cases env (to_be_processed df last) last he with
            ⟨hnil, hw⟩ | hmem
          · rw [hv, hnil] at hne2; simp at hne2
          · rw [hv]; exact hmem
        · intro hnil
          rw [hpe] at hnil
          have hnil2 : (parseLoop env last (to_be_processed df last)).visited = [] := hnil
          rcases parseLoop_watermark_cases env (to_be_processed df last) last he with
            ⟨_, hw⟩ | hmem
          · exact hw
          · rw [hv] at hnil2
            rw [hnil2] at hmem
            simp at hmem

/-- Witness for C3: a completed run writes the checkpoint once with the highest
index reached, and an aborted run (an unclassifiable row raises) writes nothing
and leaves the stored state unchanged. -/
theorem checkpoint_written_once_with_watermark_witness :
    (∃ c w, stFirebaseNeg1.working_storage_type = "firebase" ∧
      stFirebaseNeg1.record = some c ∧
      (parse env0 stFirebaseNeg1 [adaRow]).checkpointWrites = [w] ∧
      (parse env0 stFirebaseNeg1 [adaRow]).finalState.record = some w ∧
      (∀ i ∈ (parse env0 stFirebaseNeg1 [adaRow]).visited, i ≤ w) ∧
      ((parse env0 stFirebaseNeg1 [adaRow]).visited ≠ [] →
        w ∈ (parse env0 stFirebaseNeg1 [adaRow]).visited) ∧
      ((parse env0 stFirebaseNeg1 [adaRow]).visited = [] → w = c)) ∧
    ((parse env0 stFirebaseNeg1 [unclassifiedRow]).checkpointWrites = [] ∧
      (parse env0 stFirebaseNeg1 [unclassifiedRow]).finalState = stFirebaseNeg1) :=
  ⟨(checkpoint_written_once_with_watermark env0 stFirebaseNeg1 [adaRow]).1 rfl,
   (checkpoint_written_once_with_watermark env0 stFirebaseNeg1 [unclassifiedRow]).2 rfl⟩

/-- Claim C6: when the stored checkpoint `c` equals `N - 1`, no row is visited
(no classify/build/publish call occurs) and the checkpoint is rewritten with the
same value `c` — an idempotent no-op on the checkpoint state. -/
theorem no_new_rows_idempotent (env : Env) (st : AppState) (df : List Row) (c : Int)
    (hfb : st.working_storage_type = "firebase") (hrec : st.record = some c)
    (hc : c = (df.length : Int) - 1) :
    (parse env st df).visited = [] ∧ (parse env st df).outcomes = [] ∧
    (parse env st df).checkpointWrites = [c] ∧
    (parse env st df).finalState.record = some c ∧ (parse env st df).err = none := by
  have hg : get_last_processed_row st = Except.ok (some c) :=
    (get_last_some_iff st c).mpr ⟨hfb, hrec⟩
  have htbp : to_be_processed df c = [] := by
    unfold to_be_processed pySliceFrom
    rw [if_pos (by omega : (0 : Int) ≤ c + 1)]
    apply List.drop_eq_nil_of_le
    rw [dfEnum_length]
    omega
  rw [parse_get_some_eq env st df c hg, htbp]
  refine ⟨rfl, rfl, rfl, ?_, rfl⟩
  show (update_last_processed_row st c).record = some c
  unfold update_last_processed_row
  rw [if_pos hfb]

/-- Witness for C6: checkpoint 0 on a one-row table is a no-op that rewrites 0. -/
theorem no_new_rows_idempotent_witness :
    (parse env0 stFirebase0 [adaRow]).visited = [] ∧
    (parse env0 stFirebase0 [adaRow]).outcomes = [] ∧
    (parse env0 stFirebase0 [adaRow]).checkpointWrites = [0] ∧
    (parse env0 stFirebase0 [adaRow]).finalState.record = some 0 ∧
    (parse env0 stFirebase0 [adaRow]).err = none :=
  no_new_rows_idempotent env0 stFirebase0 [adaRow] 0 rfl rfl (by decide)

/-- Counterexample to C7: when no checkpoint record exists, `to_dict()` returns
`None` and the subscript raises `TypeError`; the call fails instead of
returning the sentinel `-1` (or anything at all). -/
theorem get_checkpoint_no_sentinel_counterexample :
    get_last_processed_row stFirebaseNoDoc = Except.error PyError.typeError ∧
    get_last_processed_row stFirebaseNoDoc ≠ Except.ok (some (-1)) := by
  exact ⟨rfl, by decide⟩

/-- Amended C7: `get_last_processed_row` returns the index stored in the backing
record when the record exists, and raises `TypeError` (rather than returning a
sentinel) when no record exists. -/
theorem get_checkpoint_reads_record_or_raises (v : Int) :
    get_last_processed_row (AppState.mk "firebase" (some v)) = Except.ok (some v) ∧
    get_last_processed_row (AppState.mk "firebase" none) = Except.error PyError.typeError :=
  ⟨rfl, rfl⟩

/-- Claim C8: every successfully processed row is published under the name
`fullname ++ " (id-" ++ idx ++ " type-" ++ proposal_type ++ ")"`, where
`fullname` is the `First name` field, a space, and the `Last name` field. -/
theorem gdoc_name_convention (env : Env) (i : Int) (row : Row) (out : RowOutcome)
    (first lastName : String)
    (hf : row.get "First name" = Except.ok first)
    (hl : row.get "Last name" = Except.ok lastName)
    (hok : parse_row env i row = Except.ok out) :
    out.gdoc_name = first ++ " " ++ lastName ++ " (id-" ++ toString i ++ " type-"
      ++ out.proposal_type ++ ")" := by
  cases hd : row.get "What proposal are you planning to submit" with
  | error e => simp [parse_row, hf, hl, hd] at hok
  | ok d =>
    cases hcd : classifyDiscriminant d with
    | none => simp [parse_row, hf, hl, hd, hcd] at hok
    | some kind =>
      cases hb : builderFor kind i row with
      | error e => simp [parse_row, hf, hl, hd, hcd, hb] at hok
      | ok doc =>
        cases hh : env.httpFails i with
        | true =>
          simp [parse_row, hf, hl, hd, hcd, hb, hh] at hok
          subst hok
          rfl
        | false =>
          simp [parse_row, hf, hl, hd, hcd, hb, hh] at hok
          subst hok
          rfl

/-- Witness for C8: row index 7, kind panel, person Ada Lovelace is published
as exactly `Ada Lovelace (id-7 type-panel)`. -/
theorem gdoc_name_convention_witness :
    parse_row env0 7 adaRow =
      Except.ok (RowOutcome.mk "Ada Lovelace (id-7 type-panel)" "folder-pan" "panel" true) ∧
    (RowOutcome.mk "Ada Lovelace (id-7 type-panel)" "folder-pan" "panel" true).gdoc_name =
      "Ada" ++ " " ++ "Lovelace" ++ " (id-" ++ toString (7 : Int) ++ " type-"
        ++ (RowOutcome.mk "Ada Lovelace (id-7 type-panel)" "folder-pan" "panel"
            true).proposal_type ++ ")" ∧
    (RowOutcome.mk "Ada Lovelace (id-7 type-panel)" "folder-pan" "panel" true).gdoc_name =
      "Ada Lovelace (id-7 type-panel)" :=
  ⟨rfl,
   gdoc_name_convention env0 7 adaRow
     (RowOutcome.mk "Ada Lovelace (id-7 type-panel)" "folder-pan" "panel" true)
     "Ada" "Lovelace" (by decide) (by decide) (by decide),
   rfl⟩

/-- Claim C9: each of the three exact variant strings classifies to the
corresponding kind, with its configured destination folder and its builder;
any other discriminant string classifies to `none` (the unclassified case). -/
theorem classification_round_trip (env : Env) (d : String)
    (h1 : d ≠ individual_discriminant) (h2 : d ≠ panel_discriminant)
    (h3 : d ≠ roundtable_discriminant) :
    (classifyDiscriminant individual_discriminant = some DocKind.individual ∧
      folderFor env DocKind.individual = env.individual_folder ∧
      builderFor DocKind.individual = create_individual_proposal_doc) ∧
    (classifyDiscriminant panel_discriminant = some DocKind.panel ∧
      folderFor env DocKind.panel = env.panel_folder ∧
      builderFor DocKind.panel = create_panel_proposal_doc) ∧
    (classifyDiscriminant roundtable_discriminant = some DocKind.roundtable ∧
      folderFor env DocKind.roundtable = env.roundtable_folder ∧
      builderFor DocKind.roundtable = create_roundtable_proposal_doc) ∧
    classifyDiscriminant d = none := by
  refine ⟨⟨by decide, rfl, rfl⟩, ⟨by decide, rfl, rfl⟩, ⟨by decide, rfl, rfl⟩, ?_⟩
  unfold classifyDiscriminant
  rw [if_neg h1, if_neg h2, if_neg h3]

/-- Witness for C9: the correctly spelled string `A proposal for a roundtable`
matches none of the three variants (the code tests for the misspelling
`routable`), so it is unclassified. -/
theorem classification_round_trip_witness :
    (classifyDiscriminant individual_discriminant = some DocKind.individual ∧
      folderFor env0 DocKind.individual = env0.individual_folder ∧
      builderFor DocKind.individual = create_individual_proposal_doc) ∧
    (classifyDiscriminant panel_discriminant = some DocKind.panel ∧
      folderFor env0 DocKind.panel = env0.panel_folder ∧
      builderFor DocKind.panel = create_panel_proposal_doc) ∧
    (classifyDiscriminant roundtable_discriminant = some DocKind.roundtable ∧
      folderFor env0 DocKind.roundtable = env0.roundtable_folder ∧
      builderFor DocKind.roundtable = create_roundtable_proposal_doc) ∧
    classifyDiscriminant "A proposal for a roundtable" = none :=
  classification_round_trip env0 "A proposal for a roundtable"
    (by decide) (by decide) (by decide)

/-- Claim C10: on any working-storage type other than `firebase` (including
the default `file`), `get_last_processed_row` returns `None`,
`update_last_processed_row` writes nothing, and `parse` raises `TypeError` at
`last_processed_row + 1` before visiting any row. -/
theorem non_firebase_storage_nonfunctional (env : Env) (st : AppState) (df : List Row)
    (i : Int) (h : st.working_storage_type ≠ "firebase") :
    get_last_processed_row st = Except.ok none ∧
    update_last_processed_row st i = st ∧
    parse env st df = RunResult.mk st [] [] [] (some PyError.typeError) := by
  have hg := get_last_not_firebase st h
  exact ⟨hg, update_not_firebase st i h, parse_get_none_eq env st df hg⟩

/-- Witness for C10: on the default `file` storage, the run fails with
`TypeError` before visiting any row and nothing is read or written. -/
theorem non_firebase_storage_nonfunctional_witness :
    get_last_processed_row stFile = Except.ok none ∧
    update_last_processed_row stFile 5 = stFile ∧
    parse env0 stFile [adaRow] =
      RunResult.mk stFile [] [] [] (some PyError.typeError) :=
  non_firebase_storage_nonfunctional env0 stFile [adaRow] 5 (by decide)

/-- Counterexample to C1: for the row whose discriminant is the correctly
spelled `A proposal for a roundtable` (which matches none of the three variant
strings), the run aborts with an uncaught `UnboundLocalError` instead of
recording a per-row failure: it never reaches Finalizing, and the checkpoint is
not updated to include the row's index 0. -/
theorem unclassified_row_crashes_counterexample :
    parse env0 stFirebaseNeg1 [unclassifiedRow] =
      RunResult.mk stFirebaseNeg1 [0] [] [] (some (PyError.unboundLocalError "document")) ∧
    (parse env0 stFirebaseNeg1 [unclassifiedRow]).checkpointWrites ≠ [0] := by
  exact ⟨rfl, by decide⟩

/-- Amended C1: a row whose discriminant matches none of the three variant
strings leaves `document` unbound, so `parse_row` raises `UnboundLocalError`,
which is not caught by the orchestrator loop; any run aborted by an uncaught
exception makes no checkpoint write and leaves the stored state unchanged. -/
theorem unclassified_row_raises_uncaught (env : Env) (st : AppState) (df : List Row)
    (i : Int) (row : Row) (d : String)
    (hf : exceptIsOk (row.get "First name") = true)
    (hl : exceptIsOk (row.get "Last name") = true)
    (hd : row.get "What proposal are you planning to submit" = Except.ok d)
    (hu : classifyDiscriminant d = none) :
    parse_row env i row = Except.error (PyError.unboundLocalError "document") ∧
    ((parse env st df).err.isSome = true →
      (parse env st df).checkpointWrites = [] ∧ (parse env st df).finalState = st) := by
  refine ⟨?_, parse_err_isSome env st df⟩
  rw [exceptIsOk_iff] at hf hl
  obtain ⟨fv, hf⟩ := hf
  obtain ⟨lv, hl⟩ := hl
  simp [parse_row, hf, hl, hd, hu]

/-- Witness for amended C1, at the one-row table with the unclassifiable row. -/
theorem unclassified_row_raises_uncaught_witness :
    parse_row env0 0 unclassifiedRow = Except.error (PyError.unboundLocalError "document") ∧
    ((parse env0 stFirebaseNeg1 [unclassifiedRow]).checkpointWrites = [] ∧
      (parse env0 stFirebaseNeg1 [unclassifiedRow]).finalState = stFirebaseNeg1) :=
  ⟨(unclassified_row_raises_uncaught env0 stFirebaseNeg1 [unclassifiedRow] 0 unclassifiedRow
      "A proposal for a roundtable" (by decide) (by decide) (by decide) (by decide)).1,
   (unclassified_row_raises_uncaught env0 stFirebaseNeg1 [unclassifiedRow] 0 unclassifiedRow
      "A proposal for a roundtable" (by decide) (by decide) (by decide) (by decide)).2
     (by decide)⟩

/-- Counterexample to C2: a panel row lacking `Topic of the panel` makes the
run abort with an uncaught `KeyError` at row 0; the following row 1 is never
processed and the run does not complete. -/
theorem missing_field_crashes_counterexample :
    parse env0 stFirebaseNeg1 [panelRowNoTopic, adaRow] =
      RunResult.mk stFirebaseNeg1 [0] [] [] (some (PyError.keyError "Topic of the panel")) ∧
    (parse env0 stFirebaseNeg1 [panelRowNoTopic, adaRow]).visited ≠ [0, 1] := by
  exact ⟨rfl, by decide⟩

/-- Amended C2: a row lacking a field required by its document kind makes
`parse_row` raise an uncaught `KeyError` naming that column (shown for
`First name`, `Topic of the panel` and `Abstract`); any run aborted by an
uncaught exception makes no checkpoint write and leaves the state unchanged. -/
theorem missing_field_raises_key_error (env : Env) (st : AppState) (df : List Row)
    (i : Int) (row : Row) :
    (row.get "First name" = Except.error (PyError.keyError "First name") →
      parse_row env i row = Except.error (PyError.keyError "First name")) ∧
    ((∃ d, row.get "What proposal are you planning to submit" = Except.ok d ∧
        classifyDiscriminant d = some DocKind.panel) →
      exceptIsOk (create_base_doc i row "Panel") = true →
      row.get "Topic of the panel" = Except.error (PyError.keyError "Topic of the panel") →
      parse_row env i row = Except.error (PyError.keyError "Topic of the panel")) ∧
    ((∃ d, row.get "What proposal are you planning to submit" = Except.ok d ∧
        classifyDiscriminant d = some DocKind.individual) →
      exceptIsOk (create_base_doc i row "Individual/Film/Other") = true →
      row.get "Abstract" = Except.error (PyError.keyError "Abstract") →
      parse_row env i row = Except.error (PyError.keyError "Abstract")) ∧
    ((parse env st df).err.isSome = true →
      (parse env st df).checkpointWrites = [] ∧ (parse env st df).finalState = st) := by
  refine ⟨?_, ?_, ?_, parse_err_isSome env st df⟩
  · intro ha
    simp [parse_row, ha]
  · rintro ⟨d, hd, hc⟩ hbase htopic
    obtain ⟨⟨fv, hf⟩, ⟨lv, hl⟩, -, -, -⟩ := create_base_doc_ok_fields i row "Panel" hbase
    obtain ⟨b, hb⟩ := (exceptIsOk_iff _).mp hbase
    simp [parse_row, hf, hl, hd, hc, builderFor, create_panel_proposal_doc, hb, htopic]
  · rintro ⟨d, hd, hc⟩ hbase habs
    obtain ⟨⟨fv, hf⟩, ⟨lv, hl⟩, -, -, -⟩ :=
      create_base_doc_ok_fields i row "Individual/Film/Other" hbase
    obtain ⟨b, hb⟩ := (exceptIsOk_iff _).mp hbase
    simp [parse_row, hf, hl, hd, hc, builderFor, create_individual_proposal_doc, hb, habs]

/-- Witness for amended C2: the three missing-column rows each raise the
matching `KeyError`, and the aborted run writes no checkpoint. -/
theorem missing_field_raises_key_error_witness :
    parse_row env0 0 rowNoFirstName = Except.error (PyError.keyError "First name") ∧
    parse_row env0 1 panelRowNoTopic = Except.error (PyError.keyError "Topic of the panel") ∧
    parse_row env0 2 individualRowNoAbstract = Except.error (PyError.keyError "Abstract") ∧
    ((parse env0 stFirebaseNeg1 [panelRowNoTopic]).checkpointWrites = [] ∧
      (parse env0 stFirebaseNeg1 [panelRowNoTopic]).finalState = stFirebaseNeg1) :=
  ⟨(missing_field_raises_key_error env0 stFirebaseNeg1 [panelRowNoTopic] 0 rowNoFirstName).1
     (by decide),
   (missing_field_raises_key_error env0 stFirebaseNeg1 [panelRowNoTopic] 1 panelRowNoTopic).2.1
     ⟨panel_discriminant, by decide, by decide⟩ (by decide) (by decide),
   (missing_field_raises_key_error env0 stFirebaseNeg1 [panelRowNoTopic] 2
       individualRowNoAbstract).2.2.1
     ⟨individual_discriminant, by decide, by decide⟩ (by decide) (by decide),
   (missing_field_raises_key_error env0 stFirebaseNeg1 [panelRowNoTopic] 0
       rowNoFirstName).2.2.2 (by decide)⟩

/-- Counterexample to C4: the upload of row 0 fails with a caught `HttpError`
(the outcome records `uploaded = false`), but the next row raises an uncaught
`KeyError`, so the run aborts: no checkpoint write happens and the stored
checkpoint stays `-1`, which is not at least the failed row's index 0. -/
theorem publish_failure_no_checkpoint_advance_counterexample :
    parse envHttpFail0 stFirebaseNeg1 [adaRow, panelRowNoTopic] =
      RunResult.mk stFirebaseNeg1 [0, 1]
        [(0, RowOutcome.mk "Ada Lovelace (id-0 type-panel)" "folder-pan" "panel" false)]
        [] (some (PyError.keyError "Topic of the panel")) ∧
    envHttpFail0.httpFails 0 = true ∧
    (parse envHttpFail0 stFirebaseNeg1 [adaRow, panelRowNoTopic]).finalState.record =
      some (-1) ∧
    (parse envHttpFail0 stFirebaseNeg1 [adaRow, panelRowNoTopic]).checkpointWrites = [] ∧
    ¬ (0 : Int) ≤ -1 := by
  exact ⟨rfl, rfl, rfl, rfl, by decide⟩

/-- Amended C4: `HttpError` from the upload is caught at the row boundary
(`parse_row` still returns an outcome, with `uploaded = false` exactly for the
rows whose upload fails); provided every new row parses without an uncaught
exception, the run completes, every row's outcome is recorded, and the single
checkpoint write is at least every visited row's index. -/
theorem publish_failure_recorded_run_continues (env : Env) (st : AppState) (df : List Row)
    (c : Int) (hfb : st.working_storage_type = "firebase") (hrec : st.record = some c)
    (hok : ∀ p ∈ to_be_processed df c, exceptIsOk (parse_row env p.1 p.2) = true) :
    (parse env st df).err = none ∧
    ∃ w, (parse env st df).checkpointWrites = [w] ∧
      ∀ p ∈ to_be_processed df c, p.1 ≤ w ∧
        ∃ out, parse_row env p.1 p.2 = Except.ok out ∧
          (p.1, out) ∈ (parse env st df).outcomes ∧
          out.uploaded = !(env.httpFails p.1) := by
  have hg : get_last_processed_row st = Except.ok (some c) :=
    (get_last_some_iff st c).mpr ⟨hfb, hrec⟩
  have he : (parseLoop env c (to_be_processed df c)).err = none :=
    parseLoop_err_none_of_all_ok env (to_be_processed df c) c hok
  have hpe : parse env st df =
      RunResult.mk
        (update_last_processed_row st (parseLoop env c (to_be_processed df c)).watermark)
        (parseLoop env c (to_be_processed df c)).visited
        (parseLoop env c (to_be_processed df c)).outcomes
        [(parseLoop env c (to_be_processed df c)).watermark] none := by
    rw [parse_get_some_eq env st df c hg, finalizeRun_err_none _ _ he]
  refine ⟨by rw [hpe], (parseLoop env c (to_be_processed df c)).watermark, by rw [hpe], ?_⟩
  intro p hp
  have hpmem : p.1 ∈ (to_be_processed df c).map Prod.fst := List.mem_map_of_mem Prod.fst hp
  refine ⟨parseLoop_watermark_ge env (to_be_processed df c) c he
    (to_be_processed_pairwise df c) p.1 hpmem, ?_⟩
  obtain ⟨out, hout⟩ := (exceptIsOk_iff _).mp (hok p hp)
  refine ⟨out, hout, ?_, parse_row_uploaded env p.1 p.2 out hout⟩
  rw [hpe]
  exact parseLoop_outcomes_mem env (to_be_processed df c) c he p hp out hout

/-- Witness for amended C4: a one-row run whose only upload fails with
`HttpError` still completes, records the failed outcome, and writes the
checkpoint at the failed row's index. -/
theorem publish_failure_recorded_run_continues_witness :
    (parse envHttpFail0 stFirebaseNeg1 [adaRow]).err = none ∧
    ∃ w, (parse envHttpFail0 stFirebaseNeg1 [adaRow]).checkpointWrites = [w] ∧
      ∀ p ∈ to_be_processed [adaRow] (-1), p.1 ≤ w ∧
        ∃ out, parse_row envHttpFail0 p.1 p.2 = Except.ok out ∧
          (p.1, out) ∈ (parse envHttpFail0 stFirebaseNeg1 [adaRow]).outcomes ∧
          out.uploaded = !(envHttpFail0.httpFails p.1) :=
  publish_failure_recorded_run_continues envHttpFail0 stFirebaseNeg1 [adaRow] (-1)
    rfl rfl (by decide)

/-- Counterexample to C5: with checkpoint `-1` and a two-row table
(`N - 1 - c = 2`), the malformed first row raises an uncaught `KeyError`, so
the loop visits only row 0, not the claimed rows 0 and 1. -/
theorem visits_all_new_rows_counterexample :
    parse env0 stFirebaseNeg1 [rowNoFirstName, adaRow] =
      RunResult.mk stFirebaseNeg1 [0] [] [] (some (PyError.keyError "First name")) ∧
    stFirebaseNeg1.record = some (-1) ∧
    (([rowNoFirstName, adaRow].length : Nat) : Int) - 1 - (-1) = 2 ∧
    (parse env0 stFirebaseNeg1 [rowNoFirstName, adaRow]).visited ≠ [0, 1] := by
  exact ⟨rfl, rfl, by decide, by decide⟩

/-- Amended C5: the sliced suffix `to_be_processed` consists of exactly the
`N - 1 - c` rows with labels `c+1 .. N-1`, in strictly increasing order; the
loop visits a prefix of these labels in that order, and visits all of them
when every sliced row parses without an uncaught exception. -/
theorem new_rows_sliced_in_order (env : Env) (st : AppState) (df : List Row) (c : Int)
    (hfb : st.working_storage_type = "firebase") (hrec : st.record = some c)
    (h1 : -1 ≤ c) (h2 : c < (df.length : Int) - 1) :
    (to_be_processed df c).map Prod.fst = intRange (c + 1) (df.length - (c + 1).toNat) ∧
    ((to_be_processed df c).length : Int) = (df.length : Int) - 1 - c ∧
    List.Pairwise (fun a b => a < b) ((to_be_processed df c).map Prod.fst) ∧
    (∃ t, (parse env st df).visited ++ t = (to_be_processed df c).map Prod.fst) ∧
    ((∀ p ∈ to_be_processed df c, exceptIsOk (parse_row env p.1 p.2) = true) →
      (parse env st df).visited = (to_be_processed df c).map Prod.fst) := by
  have hg : get_last_processed_row st = Except.ok (some c) :=
    (get_last_some_iff st c).mpr ⟨hfb, hrec⟩
  have hv := parse_visited_eq_loop env st df c hg
  refine ⟨to_be_processed_map_fst df c h1,
    to_be_processed_length df c h1 (by omega),
    to_be_processed_pairwise df c, ?_, ?_⟩
  · rw [hv]
    exact parseLoop_visited_prefix env (to_be_processed df c) c
  · intro hok
    rw [hv]
    exact parseLoop_err_none_visited env (to_be_processed df c) c
      (parseLoop_err_none_of_all_ok env (to_be_processed df c) c hok)

/-- Witness for amended C5: with checkpoint `-1` and a well-formed two-row
table, the slice is the labels 0 and 1 in order and both are visited. -/
theorem new_rows_sliced_in_order_witness :
    (to_be_processed [adaRow, adaRow] (-1)).map Prod.fst =
      intRange ((-1 : Int) + 1) ([adaRow, adaRow].length - ((-1 : Int) + 1).toNat) ∧
    ((to_be_processed [adaRow, adaRow] (-1)).length : Int) =
      (([adaRow, adaRow].length : Nat) : Int) - 1 - (-1) ∧
    List.Pairwise (fun a b => a < b)
      ((to_be_processed [adaRow, adaRow] (-1)).map Prod.fst) ∧
    (∃ t, (parse env0 stFirebaseNeg1 [adaRow, adaRow]).visited ++ t =
      (to_be_processed [adaRow, adaRow] (-1)).map Prod.fst) ∧
    ((∀ p ∈ to_be_processed [adaRow, adaRow] (-1),
        exceptIsOk (parse_row env0 p.1 p.2) = true) →
      (parse env0 stFirebaseNeg1 [adaRow, adaRow]).visited =
        (to_be_processed [adaRow, adaRow] (-1)).map Prod.fst) :=
  new_rows_sliced_in_order env0 stFirebaseNeg1 [adaRow, adaRow] (-1)
    rfl rfl (by decide) (by decide)
